import Mathlib

/-!
Verification development for the face-perception experiment repository
(`exp_1_attention_accuracy`, `exp_2_memory`, and the shared display-fidelity
monitor).  The JavaScript sources are shallowly embedded below: every pure
function becomes a Lean function over the same data, stateful browser code
becomes explicit state passing, and each call to
`jsPsych.randomization.shuffle` is modelled by quantifying over an arbitrary
permutation of the list being shuffled (hypothesis `·.Perm ·`), and each call
to `Math.random() < 0.5` by an arbitrary Boolean stream indexed by position.
-/

namespace FaceExp

/-- One entry of `STIMULI_CONFIG.individuals` (identical in both experiment
variants): an individual's id together with its race and gender labels. -/
structure Individual where
  id : String
  race : String
  gender : String
deriving DecidableEq, Repr

/-- `STIMULI_CONFIG.individuals`: the pool of 16 individuals (2 per
race × gender combination), as listed in `stimuli.js` of both variants. -/
def STIMULI_CONFIG_individuals : List Individual :=
  [ ⟨"black_male_01", "black", "male"⟩,
    ⟨"black_male_02", "black", "male"⟩,
    ⟨"black_female_01", "black", "female"⟩,
    ⟨"black_female_02", "black", "female"⟩,
    ⟨"asian_male_01", "asian", "male"⟩,
    ⟨"asian_male_02", "asian", "male"⟩,
    ⟨"asian_female_01", "asian", "female"⟩,
    ⟨"asian_female_02", "asian", "female"⟩,
    ⟨"white_male_01", "white", "male"⟩,
    ⟨"white_male_02", "white", "male"⟩,
    ⟨"white_female_01", "white", "female"⟩,
    ⟨"white_female_02", "white", "female"⟩,
    ⟨"hispanic_male_01", "hispanic", "male"⟩,
    ⟨"hispanic_male_02", "hispanic", "male"⟩,
    ⟨"hispanic_female_01", "hispanic", "female"⟩,
    ⟨"hispanic_female_02", "hispanic", "female"⟩ ]

/-- The two presentation sizes, `'big'` and `'small'`. -/
inductive Size where
  | big
  | small
deriving DecidableEq, Repr

/-- `getImagePath` (identical in both variants): builds
`images/{race}_{gender}_{smile}_{id}_{size}.{ext}` by splitting the
individual id on `'_'`. -/
def getImagePath (individualId : String) (size : Size) (smile : Bool) : String :=
  let parts := individualId.splitOn "_"
  let race := parts.getD 0 ""
  let gender := parts.getD 1 ""
  let idNum := parts.getD 2 ""
  let smileStr := if smile then "smile" else "nosmile"
  let ext := if size = Size.big then "jpeg" else "png"
  let sizeStr := if size = Size.big then "big" else "small"
  "images/" ++ race ++ "_" ++ gender ++ "_" ++ smileStr ++ "_" ++ idNum ++ "_" ++ sizeStr ++ "." ++ ext

/-- One entry of the `conditions` array in `generateStimulusAssignment`
(exp_1): a size × smile condition. -/
structure Exp1Cond where
  size : Size
  smile : Bool
deriving DecidableEq, Repr

/-- The `conditions` array of `generateStimulusAssignment` (exp_1). -/
def exp1Conditions : List Exp1Cond :=
  [ ⟨Size.big, true⟩, ⟨Size.big, false⟩, ⟨Size.small, true⟩, ⟨Size.small, false⟩ ]

/-- One element of the `trials` array built by `generateStimulusAssignment`. -/
structure Trial where
  individual_id : String
  race : String
  gender : String
  size : Size
  smile : Bool
  image_path : String
deriving DecidableEq, Repr

/-- The trial record pushed by `generateStimulusAssignment` for one loop
index: condition fields from the condition, identity fields from the
individual. -/
def mkTrial (condition : Exp1Cond) (individual : Individual) : Trial :=
  { individual_id := individual.id
    race := individual.race
    gender := individual.gender
    size := condition.size
    smile := condition.smile
    image_path := getImagePath individual.id condition.size condition.smile }

/-- The `trials` array of `generateStimulusAssignment` (exp_1) before the
final presentation-order shuffle: for `i = 0..15`, condition index
`⌊i/4⌋` and the `i`-th entry of the shuffled individual pool. -/
def generateStimulusAssignmentTrials (shuffledIndividuals : List Individual) : List Trial :=
  (List.range 16).map fun i =>
    mkTrial (exp1Conditions.getD (i / 4) ⟨Size.big, true⟩)
      (shuffledIndividuals.getD i ⟨"", "", ""⟩)

/-- `generateStimulusAssignment` (exp_1): builds the `trials` array from the
shuffled pool and returns it in a shuffled presentation order; the final
`jsPsych.randomization.shuffle` is the `orderShuffle` parameter. -/
def generateStimulusAssignment (shuffledIndividuals : List Individual)
    (orderShuffle : List Trial → List Trial) : List Trial :=
  orderShuffle (generateStimulusAssignmentTrials shuffledIndividuals)

/-- The question type of one memory-experiment round, `'race'` or `'smile'`. -/
inductive QType where
  | race
  | smile
deriving DecidableEq, Repr

/-- One entry of the `conditions` array in `generateAllRounds` (exp_2). -/
structure Exp2Cond where
  size : Size
  questionType : QType
deriving DecidableEq, Repr

/-- The `conditions` array of `generateAllRounds` (exp_2). -/
def exp2Conditions : List Exp2Cond :=
  [ ⟨Size.big, QType.race⟩, ⟨Size.big, QType.smile⟩,
    ⟨Size.small, QType.race⟩, ⟨Size.small, QType.smile⟩ ]

/-- One element of the `rounds` array built by `generateAllRounds`. -/
structure Round where
  size : Size
  questionType : QType
  repetition : Nat
deriving DecidableEq, Repr

/-- The `rounds` array of `generateAllRounds` (exp_2) before the final
shuffle: each condition repeated for `rep = 0,1,2` with `repetition = rep+1`. -/
def generateAllRoundsBase : List Round :=
  exp2Conditions.flatMap fun condition =>
    (List.range 3).map fun rep =>
      { size := condition.size, questionType := condition.questionType, repetition := rep + 1 }

/-- `generateAllRounds` (exp_2): the 12 `rounds` in a shuffled order; the
final `jsPsych.randomization.shuffle` is the `orderShuffle` parameter. -/
def generateAllRounds (orderShuffle : List Round → List Round) : List Round :=
  orderShuffle generateAllRoundsBase

/-- One element of the `assignments` array in `generateGridForRound`
(exp_2): a selected individual together with its smile assignment. -/
structure Assignment where
  individual : Individual
  smile : Bool
deriving DecidableEq, Repr

/-- The smile choice for one element of the first pass of
`generateGridForRound`: forced to `false` once `smilingCount >= 10`,
forced to `true` once `notSmilingCount >= 10`, and `Math.random() < 0.5`
(the `coins` stream, indexed by position) otherwise. -/
def smileVal (coins : Nat → Bool) (i s n : Nat) : Bool :=
  if 10 ≤ s then false else if 10 ≤ n then true else coins i

/-- The first pass of `generateGridForRound`: map over the selected
individuals, assigning each its `smileVal` while threading the
`smilingCount` and `notSmilingCount` counters. Returns the `assignments`
array and the final values of both counters. -/
def firstPassAux (coins : Nat → Bool) :
    List Individual → Nat → Nat → Nat → List Assignment × Nat × Nat
  | [], _, s, n => ([], s, n)
  | individual :: rest, i, s, n =>
    let smile := smileVal coins i s n
    let r := firstPassAux coins rest (i + 1) (if smile then s + 1 else s)
      (if smile then n else n + 1)
    (⟨individual, smile⟩ :: r.1, r.2.1, r.2.2)

/-- The first repair loop of `generateGridForRound`:
`for (i = 0; i < assignments.length && smilingCount < 2; i++)` flipping
non-smiling assignments to smiling. -/
def flipToSmiling : List Assignment → Nat → Nat → List Assignment × Nat × Nat
  | [], s, n => ([], s, n)
  | a :: rest, s, n =>
    if s < 2 then
      if a.smile then
        let r := flipToSmiling rest s n
        (a :: r.1, r.2.1, r.2.2)
      else
        let r := flipToSmiling rest (s + 1) (n - 1)
        ({ a with smile := true } :: r.1, r.2.1, r.2.2)
    else (a :: rest, s, n)

/-- The second repair loop of `generateGridForRound`: flipping smiling
assignments to non-smiling while `notSmilingCount < 2`. -/
def flipToNotSmiling : List Assignment → Nat → Nat → List Assignment × Nat × Nat
  | [], s, n => ([], s, n)
  | a :: rest, s, n =>
    if n < 2 then
      if a.smile then
        let r := flipToNotSmiling rest (s - 1) (n + 1)
        ({ a with smile := false } :: r.1, r.2.1, r.2.2)
      else
        let r := flipToNotSmiling rest s n
        (a :: r.1, r.2.1, r.2.2)
    else (a :: rest, s, n)

/-- One element of the `gridImages` array built by `generateGridForRound`. -/
structure GridImage where
  individual_id : String
  race : String
  gender : String
  smile : Bool
  size : Size
  image_path : String
deriving DecidableEq, Repr

/-- The grid-image record pushed for one assignment in the build loop of
`generateGridForRound`. -/
def mkGridImage (size : Size) (a : Assignment) : GridImage :=
  { individual_id := a.individual.id
    race := a.individual.race
    gender := a.individual.gender
    smile := a.smile
    size := size
    image_path := getImagePath a.individual.id size a.smile }

/-- The `composition` record of `generateGridForRound`. -/
structure Composition where
  asian : Nat
  black : Nat
  hispanic : Nat
  white : Nat
  smiling : Nat
  not_smiling : Nat
deriving DecidableEq, Repr

/-- One step of the composition-update in the build loop of
`generateGridForRound`: `composition[individual.race]++` followed by the
smiling/not-smiling increment. -/
def updateComposition (comp : Composition) (a : Assignment) : Composition :=
  let c1 :=
    if a.individual.race = "asian" then { comp with asian := comp.asian + 1 }
    else if a.individual.race = "black" then { comp with black := comp.black + 1 }
    else if a.individual.race = "hispanic" then { comp with hispanic := comp.hispanic + 1 }
    else if a.individual.race = "white" then { comp with white := comp.white + 1 }
    else comp
  if a.smile then { c1 with smiling := c1.smiling + 1 }
  else { c1 with not_smiling := c1.not_smiling + 1 }

/-- The result record returned by `generateGridForRound`; `images` is held
before the final position shuffle (`jsPsych.randomization.shuffle`, which
the claims quantify over as an arbitrary permutation). -/
structure GridResult where
  images : List GridImage
  composition : Composition
  size : Size
deriving DecidableEq, Repr

/-- `generateGridForRound` (exp_2): select the first 12 of the shuffled
pool, run the random first pass over them (`coins`), run both repair
loops, and build the grid images and composition record. -/
def generateGridForRound (size : Size) (shuffledIndividuals : List Individual)
    (coins : Nat → Bool) : GridResult :=
  let selectedIndividuals := shuffledIndividuals.take 12
  let fp := firstPassAux coins selectedIndividuals 0 0 0
  let r1 := flipToSmiling fp.1 fp.2.1 fp.2.2
  let r2 := flipToNotSmiling r1.1 r1.2.1 r1.2.2
  { images := r2.1.map (mkGridImage size)
    composition := r2.1.foldl updateComposition ⟨0, 0, 0, 0, 0, 0⟩
    size := size }

/-- A shuffle of the 16-individual pool that places the four Asian
individuals in the last four positions, so that `slice(0, 12)` selects no
Asian individual. -/
def asianLastShuffle : List Individual :=
  [ ⟨"black_male_01", "black", "male"⟩,
    ⟨"black_male_02", "black", "male"⟩,
    ⟨"black_female_01", "black", "female"⟩,
    ⟨"black_female_02", "black", "female"⟩,
    ⟨"white_male_01", "white", "male"⟩,
    ⟨"white_male_02", "white", "male"⟩,
    ⟨"white_female_01", "white", "female"⟩,
    ⟨"white_female_02", "white", "female"⟩,
    ⟨"hispanic_male_01", "hispanic", "male"⟩,
    ⟨"hispanic_male_02", "hispanic", "male"⟩,
    ⟨"hispanic_female_01", "hispanic", "female"⟩,
    ⟨"hispanic_female_02", "hispanic", "female"⟩,
    ⟨"asian_male_01", "asian", "male"⟩,
    ⟨"asian_male_02", "asian", "male"⟩,
    ⟨"asian_female_01", "asian", "female"⟩,
    ⟨"asian_female_02", "asian", "female"⟩ ]

/-- JavaScript `Math.round` on a rational: round half away from zero is
`⌊x + 1/2⌋` for the non-negative device-pixel-ratio values involved. -/
def jsRound (x : ℚ) : ℤ := ⌊x + 1 / 2⌋

/-- One element pushed onto the `zoomChanges` array by
`checkForZoomChange` (exp_1 `experiment.js`). -/
structure ZoomChangeEvent where
  timestamp : Nat
  approved_dpr : ℚ
  current_dpr : ℚ
  detected_zoom : ℤ
deriving DecidableEq, Repr

/-- The module-level mutable state of the display-fidelity monitor in the
attention variant's `experiment.js`: the flags and records read and
written by `initZoomTracking`, `endPracticeMode`, `checkForZoomChange`,
`showZoomWarning` and `terminateExperimentDueToZoom`.
`warningShownCount` counts invocations of `showZoomWarning`;
`intervalActive` models whether the 500 ms poll interval is installed. -/
structure ZoomState where
  zoomTrackingActive : Bool
  experimentEnded : Bool
  experimentTerminatedDueToZoom : Bool
  inPracticeMode : Bool
  approvedDPR : Option ℚ
  initialDPR : Option ℚ
  lastWarnedDPR : Option ℚ
  zoomChanges : List ZoomChangeEvent
  warningShownCount : Nat
  terminationOverlayShown : Bool
  intervalActive : Bool
deriving DecidableEq, Repr

/-- `initZoomTracking`: no-op when already active; otherwise records the
current device-pixel-ratio (`dpr`) as both `approvedDPR` and `initialDPR`,
marks tracking active, and installs the listeners/poll interval. -/
def initZoomTracking (dpr : ℚ) (s : ZoomState) : ZoomState :=
  if s.zoomTrackingActive then s
  else
    { s with
      zoomTrackingActive := true
      approvedDPR := some dpr
      initialDPR := some dpr
      intervalActive := true }

/-- `endPracticeMode`: flips the monitor's policy from warn to terminate. -/
def endPracticeMode (s : ZoomState) : ZoomState :=
  { s with inPracticeMode := false }

/-- `showZoomWarning`: displays the dismissible practice-phase warning
overlay (modelled as one more invocation counted). -/
def showZoomWarning (s : ZoomState) : ZoomState :=
  { s with warningShownCount := s.warningShownCount + 1 }

/-- `terminateExperimentDueToZoom`: no-op when already terminated;
otherwise sets the terminated-for-cause flag, stops the poll interval,
and shows the terminal overlay. -/
def terminateExperimentDueToZoom (s : ZoomState) : ZoomState :=
  if s.experimentTerminatedDueToZoom then s
  else
    { s with
      experimentTerminatedDueToZoom := true
      intervalActive := false
      terminationOverlayShown := true }

/-- `checkForZoomChange`: early return unless tracking is active and the
experiment neither ended nor terminated; then, when the observed ratio
deviates from the approved baseline by more than `0.01`, append a
`ZoomChangeEvent` and either warn (practice mode, deduplicated against
`lastWarnedDPR`) or terminate (main mode).  `now` stands for the
`new Date()` timestamp, `currentDPR` for `window.devicePixelRatio`. -/
def checkForZoomChange (now : Nat) (currentDPR : ℚ) (s : ZoomState) : ZoomState :=
  if !s.zoomTrackingActive || s.experimentEnded || s.experimentTerminatedDueToZoom then s
  else
    match s.approvedDPR with
    | none => s
    | some approved =>
      if 1 / 100 < |currentDPR - approved| then
        let event : ZoomChangeEvent :=
          { timestamp := now, approved_dpr := approved, current_dpr := currentDPR,
            detected_zoom := jsRound (currentDPR * 100) }
        let s1 := { s with zoomChanges := s.zoomChanges ++ [event] }
        if s1.inPracticeMode then
          match s1.lastWarnedDPR with
          | none => { showZoomWarning s1 with lastWarnedDPR := some currentDPR }
          | some lastWarned =>
            if 1 / 100 < |currentDPR - lastWarned| then
              { showZoomWarning s1 with lastWarnedDPR := some currentDPR }
            else s1
        else terminateExperimentDueToZoom s1
      else s

/-- The operations that can run against the monitor state after it has
been initialized: a (possibly repeated) `initZoomTracking` call, an
`endPracticeMode` call, a `checkForZoomChange` firing (from resize,
matchMedia or the poll), or a direct `terminateExperimentDueToZoom`. -/
inductive ZoomStep where
  | init (dpr : ℚ)
  | endPractice
  | check (now : Nat) (dpr : ℚ)
  | terminate

/-- Apply one monitor operation to the state. -/
def applyZoomStep (s : ZoomState) : ZoomStep → ZoomState
  | ZoomStep.init d => initZoomTracking d s
  | ZoomStep.endPractice => endPracticeMode s
  | ZoomStep.check now d => checkForZoomChange now d s
  | ZoomStep.terminate => terminateExperimentDueToZoom s

/-- Apply a sequence of monitor operations, oldest first. -/
def applyZoomSteps (s : ZoomState) (steps : List ZoomStep) : ZoomState :=
  steps.foldl applyZoomStep s

/-- The mutable state read and written by one iteration of the exp_1
display-check loop: the monotonically increasing `zoomCheckAttempts`
counter and the session's `zoomCheckBypassed` flag. -/
structure CheckLoopState where
  attempts : Nat
  bypassed : Bool
deriving DecidableEq, Repr

/-- The observable result of one `zoomCheck` trial followed by the
`displayCheckLoop` loop decision: the updated counters, the button labels
offered (`choices`), the per-trial data fields recorded in `on_finish`,
and whether `loop_function` repeats the check. -/
structure CheckIterationResult where
  state : CheckLoopState
  choices : List String
  zoom_ok : Bool
  fullscreen_ok : Bool
  zoom_bypassed : Bool
  loopAgain : Bool
deriving DecidableEq, Repr

/-- One iteration of the exp_1 precondition loop (`zoomCheck` plus
`displayCheckLoop.loop_function`): the stimulus callback increments
`zoomCheckAttempts`; `showBypass` requires at least 3 attempts, a failed
zoom check and satisfied fullscreen; the choices are built as in the
`choices` callback; `on_finish` sets the bypassed flag exactly when the
bypass was offered and button index 1 (`'Proceed Anyway'`) was chosen;
`loop_function` stops on bypass and otherwise repeats until both checks
pass.  `zoomOk`/`fullscreenOk` are the environment's check outcomes,
held fixed within the iteration; `response` is the chosen button index. -/
def zoomCheckIteration (s : CheckLoopState) (zoomOk fullscreenOk : Bool)
    (response : Nat) : CheckIterationResult :=
  let attempts := s.attempts + 1
  let showBypass := decide (3 ≤ attempts) && !zoomOk && fullscreenOk
  let choices :=
    if zoomOk && fullscreenOk then ["Continue"]
    else if !fullscreenOk then ["Re-enter Fullscreen", "Check Again"]
    else if showBypass then ["Check Again", "Proceed Anyway"]
    else ["Check Again"]
  let bypassChosen := showBypass && decide (response = 1)
  let loopAgain := if bypassChosen then false else !(zoomOk && fullscreenOk)
  { state := { attempts := attempts, bypassed := s.bypassed || bypassChosen }
    choices := choices
    zoom_ok := zoomOk
    fullscreen_ok := fullscreenOk
    zoom_bypassed := bypassChosen
    loopAgain := loopAgain }

/-- `DATA_EXPORT_CONFIG.googleSheetsUrl` (exp_1 `data-export.js`): the
configured, non-empty web-app endpoint. -/
def googleSheetsUrl : String :=
  "https://script.google.com/macros/s/AKfycbz9aAC62i3gNYQWIbYzjnM19zzxqckEfbxzxHAX09bCOExOqo4GWeZcYyr3S62bIeDr/exec"

/-- The form-submission step inside the promise of `sendToGoogleSheets`
(iframe + form creation and `form.submit()`): the only fallible step; the
`submitThrows` flag selects whether it raises. -/
def formSubmission (submitThrows : Bool) : Except String Unit :=
  if submitThrows then Except.error "submission failed" else Except.ok ()

/-- `sendToGoogleSheets` (exp_1 `data-export.js`): returns `false` when no
endpoint is configured; otherwise performs the form submission inside a
try/catch, resolving `true` on no-throw (success is assumed without
reading any response) and `false` on a caught throw.  The payload
assembly has no effect on the resolved value and is elided. -/
def sendToGoogleSheets (submitThrows : Bool) : Except String Bool :=
  if googleSheetsUrl = "" then Except.ok false
  else
    match formSubmission submitThrows with
    | Except.ok _ => Except.ok true
    | Except.error _ => Except.ok false

/-- Which callbacks `exportData` invoked, with their arguments. -/
structure ExportCallbackRecord where
  onCompleteCalls : List String
  onErrorCalls : List String
deriving DecidableEq, Repr

/-- `exportData` (exp_1 `data-export.js`): invokes `onError` when no
endpoint is configured; otherwise awaits `sendToGoogleSheets` and invokes
`onComplete('sheets')` on `true` and `onError('Failed to export data')`
on `false`.  An `Except.error` result would model an exception escaping
to the caller. -/
def exportData (submitThrows : Bool) : Except String ExportCallbackRecord :=
  if googleSheetsUrl = "" then
    Except.ok { onCompleteCalls := [], onErrorCalls := ["Google Sheets URL not configured"] }
  else
    match sendToGoogleSheets submitThrows with
    | Except.error e => Except.error e
    | Except.ok success =>
      if success then Except.ok { onCompleteCalls := ["sheets"], onErrorCalls := [] }
      else Except.ok { onCompleteCalls := [], onErrorCalls := ["Failed to export data"] }

/-- The screens/steps appearing in the memory variant's jsPsych timeline
(exp_2 `experiment.js`), plus — for stating their absence — the two
zoom-monitor call-function steps that only the attention variant's
timeline contains. -/
inductive Exp2Step where
  | preload
  | displayRequirementsIntro
  | enterFullscreen
  | displayCheckLoop
  | welcome
  | consent
  | demographics
  | instructions
  | practiceIntro
  | preRoundInstruction
  | gridDisplay
  | fixation
  | question
  | recordData
  | practiceFeedback
  | debrief
  | initZoomTrackingStep
  | endPracticeModeStep
deriving DecidableEq, Repr

/-- The sub-timeline of one round built by `createRound` (exp_2). -/
def exp2RoundSteps : List Exp2Step :=
  [Exp2Step.preRoundInstruction, Exp2Step.gridDisplay, Exp2Step.fixation,
   Exp2Step.question, Exp2Step.recordData]

/-- The full session timeline of the memory variant (exp_2
`experiment.js`): the preamble screens, the practice round, the practice
feedback, the 12 main rounds from `createMainExperiment`, and the
debrief. -/
def exp2Timeline : List Exp2Step :=
  [Exp2Step.preload, Exp2Step.displayRequirementsIntro, Exp2Step.enterFullscreen,
   Exp2Step.displayCheckLoop, Exp2Step.welcome, Exp2Step.consent,
   Exp2Step.demographics, Exp2Step.instructions, Exp2Step.practiceIntro] ++
    exp2RoundSteps ++ [Exp2Step.practiceFeedback] ++
    (List.replicate 12 exp2RoundSteps).flatten ++ [Exp2Step.debrief]

/-- The session-visible monitor state of the memory variant: the zoom
fields a fidelity monitor would own (none of the variant's code touches
them — the file defines no zoom-tracking functions) together with the
fullscreen-warning flag that `handleFullscreenChange` does maintain. -/
structure Exp2Session where
  zoomTrackingActive : Bool
  zoomChanges : List ZoomChangeEvent
  terminatedDueToZoom : Bool
  fullscreenWarningShown : Bool
  experimentEnded : Bool
deriving DecidableEq, Repr

/-- The state at page load of the memory variant. -/
def exp2InitialSession : Exp2Session :=
  { zoomTrackingActive := false
    zoomChanges := []
    terminatedDueToZoom := false
    fullscreenWarningShown := false
    experimentEnded := false }

/-- Effect of one timeline step on the memory variant's session state: no
step of exp_2 `experiment.js` reads or writes any zoom field; the two
zoom-monitor steps (which occur only in the attention variant's
timeline) would initialize tracking / end practice mode. -/
def exp2RunStep (st : Exp2Session) : Exp2Step → Exp2Session
  | Exp2Step.initZoomTrackingStep => { st with zoomTrackingActive := true }
  | _ => st

/-- `handleFullscreenChange` (exp_2): on leaving fullscreen, shows the
re-entry warning unless it is already shown or the experiment has ended
(the `roundNumber >= 0` guard is always true for the `Nat` counter). -/
def exp2HandleFullscreenChange (inFullscreen : Bool) (st : Exp2Session) : Exp2Session :=
  if !inFullscreen && !st.fullscreenWarningShown && !st.experimentEnded then
    { st with fullscreenWarningShown := true }
  else st

/-- The events a memory-variant session can process: a timeline step, or
a fullscreen-change event from `setupFullscreenMonitoring` — the only
document-level handler the variant registers. -/
inductive Exp2Event where
  | step (s : Exp2Step)
  | fullscreenChange (inFullscreen : Bool)

/-- An event that can actually occur in a memory-variant run: timeline
steps are drawn from `exp2Timeline`. -/
def exp2EventPossible : Exp2Event → Prop
  | Exp2Event.step s => s ∈ exp2Timeline
  | Exp2Event.fullscreenChange _ => True

/-- Apply one event to the memory variant's session state. -/
def exp2RunEvent (st : Exp2Session) : Exp2Event → Exp2Session
  | Exp2Event.step s => exp2RunStep st s
  | Exp2Event.fullscreenChange b => exp2HandleFullscreenChange b st

/-- The top-level field names of the `payload` object built by
`sendToGoogleSheets` in the memory variant's data-export module, in
source order: `experiment: 'memory'`, `participant_id`, `timestamp`,
`demographics`, and `rounds` — and nothing else (in particular, unlike
the attention variant's export module, no `zoom_tracking` field and no
guarded `getZoomTrackingData` lookup). -/
def exp2PayloadKeys : List String :=
  ["experiment", "participant_id", "timestamp", "demographics", "rounds"]

/-- Reading a list at every index of `range` of its length reproduces the
list. -/
theorem map_getD_range {α : Type} (l : List α) (d : α) :
    (List.range l.length).map (fun i => l.getD i d) = l := by
  apply List.ext_getElem
  · simp
  · intro i h1 h2
    simp only [List.getElem_map, List.getElem_range]
    exact List.getD_eq_getElem _ _ h2

/-- Each of the four size × smile conditions governs exactly 4 of the 16
loop indices of `generateStimulusAssignment`. -/
theorem exp1Conditions_count :
    ∀ c ∈ exp1Conditions,
      (List.range 16).countP (fun i =>
        decide ((exp1Conditions.getD (i / 4) ⟨Size.big, true⟩).size = c.size ∧
          (exp1Conditions.getD (i / 4) ⟨Size.big, true⟩).smile = c.smile)) = 4 := by
  decide

/-- Each individual id occurs exactly once in the stimulus pool. -/
theorem individuals_count :
    ∀ ind ∈ STIMULI_CONFIG_individuals,
      STIMULI_CONFIG_individuals.countP (fun x => decide (x.id = ind.id)) = 1 := by
  decide

/-- Each of the four size × question-type conditions occurs exactly 3
times in the pre-shuffle `rounds` array of `generateAllRounds`. -/
theorem exp2Conditions_count :
    ∀ c ∈ exp2Conditions,
      generateAllRoundsBase.countP (fun r =>
        decide (r.size = c.size ∧ r.questionType = c.questionType)) = 3 := by
  decide

/-- C1: every generated main-block assignment realizes its design exactly:
in the attention/accuracy variant, `generateStimulusAssignment` (for any
shuffle of the individual pool and any presentation-order shuffle) returns
exactly 16 trials in which each of the 4 size × smile conditions appears
exactly 4 times and each of the 16 individuals appears exactly once; in
the memory variant, `generateAllRounds` (for any order shuffle) returns
exactly 12 rounds in which each of the 4 size × question-type conditions
appears exactly 3 times. -/
theorem claim_C1
    (shuffled : List Individual) (h1 : shuffled.Perm STIMULI_CONFIG_individuals)
    (orderShuffle : List Trial → List Trial)
    (h2 : ∀ l, (orderShuffle l).Perm l)
    (roundShuffle : List Round → List Round)
    (h3 : ∀ l, (roundShuffle l).Perm l) :
    (generateStimulusAssignment shuffled orderShuffle).length = 16 ∧
    (∀ c ∈ exp1Conditions,
      (generateStimulusAssignment shuffled orderShuffle).countP
        (fun t => decide (t.size = c.size ∧ t.smile = c.smile)) = 4) ∧
    (∀ ind ∈ STIMULI_CONFIG_individuals,
      (generateStimulusAssignment shuffled orderShuffle).countP
        (fun t => decide (t.individual_id = ind.id)) = 1) ∧
    (generateAllRounds roundShuffle).length = 12 ∧
    (∀ c ∈ exp2Conditions,
      (generateAllRounds roundShuffle).countP
        (fun r => decide (r.size = c.size ∧ r.questionType = c.questionType)) = 3) := by
  have h2' : (generateStimulusAssignment shuffled orderShuffle).Perm
      (generateStimulusAssignmentTrials shuffled) := h2 _
  have h3' : (generateAllRounds roundShuffle).Perm generateAllRoundsBase := h3 _
  have hlen : shuffled.length = 16 := by
    have h := h1.length_eq
    simpa [STIMULI_CONFIG_individuals] using h
  refine ⟨?_, ?_, ?_, ?_, ?_⟩
  · rw [h2'.length_eq]
    simp [generateStimulusAssignmentTrials]
  · intro c hc
    rw [h2'.countP_eq]
    unfold generateStimulusAssignmentTrials
    rw [List.countP_map]
    have hfun : ((fun t => decide (t.size = c.size ∧ t.smile = c.smile)) ∘ fun i =>
        mkTrial (exp1Conditions.getD (i / 4) ⟨Size.big, true⟩)
          (shuffled.getD i ⟨"", "", ""⟩)) = fun i =>
        decide ((exp1Conditions.getD (i / 4) ⟨Size.big, true⟩).size = c.size ∧
          (exp1Conditions.getD (i / 4) ⟨Size.big, true⟩).smile = c.smile) := by
      funext i
      simp [mkTrial, Function.comp]
    rw [hfun]
    exact exp1Conditions_count c hc
  · intro ind hind
    rw [h2'.countP_eq]
    unfold generateStimulusAssignmentTrials
    rw [List.countP_map]
    have hfun : ((fun t => decide (t.individual_id = ind.id)) ∘ fun i =>
        mkTrial (exp1Conditions.getD (i / 4) ⟨Size.big, true⟩)
          (shuffled.getD i ⟨"", "", ""⟩)) =
        ((fun x => decide (x.id = ind.id)) ∘ fun i => shuffled.getD i ⟨"", "", ""⟩) := by
      funext i
      simp [mkTrial, Function.comp]
    rw [hfun, ← hlen, ← List.countP_map, map_getD_range, h1.countP_eq]
    exact individuals_count ind hind
  · rw [h3'.length_eq]
    decide
  · intro c hc
    rw [h3'.countP_eq]
    exact exp2Conditions_count c hc

/-- Witness for C1: instantiated at the identity shuffles. -/
theorem claim_C1_witness :
    (generateStimulusAssignment STIMULI_CONFIG_individuals id).length = 16 :=
  (claim_C1 STIMULI_CONFIG_individuals (List.Perm.refl _) id (fun l => List.Perm.refl l)
    id (fun l => List.Perm.refl l)).1

/-- C2 (failing run): `generateGridForRound` does not guarantee that every
race appears in the grid, contrary to its own doc comment ("Ensures at
least 1 of each race"): for the pool shuffle that orders the four Asian
individuals last, `slice(0, 12)` selects no Asian individual, and the
resulting grid's composition has `asian = 0` while every one of its 12
images has a non-Asian race. -/
theorem claim_C2 :
    asianLastShuffle.Perm STIMULI_CONFIG_individuals ∧
    (generateGridForRound Size.big asianLastShuffle (fun _ => true)).images.length = 12 ∧
    (generateGridForRound Size.big asianLastShuffle (fun _ => true)).composition.asian = 0 ∧
    (generateGridForRound Size.big asianLastShuffle (fun _ => true)).images.countP
      (fun g => decide (g.race = "asian")) = 0 := by
  decide

/-- If `smileVal` chooses smiling, the smiling counter was below 10. -/
theorem smileVal_true_lt (coins : Nat → Bool) (i s n : Nat)
    (h : smileVal coins i s n = true) : s < 10 := by
  by_contra hge
  rw [smileVal, if_pos (by omega)] at h
  cases h

/-- If `smileVal` chooses not-smiling, either the smiling counter forced
it (at 10) or the not-smiling counter was below 10. -/
theorem smileVal_false_cases (coins : Nat → Bool) (i s n : Nat)
    (h : smileVal coins i s n = false) : 10 ≤ s ∨ n < 10 := by
  by_cases h1 : 10 ≤ s
  · exact Or.inl h1
  · by_cases h2 : 10 ≤ n
    · rw [smileVal, if_neg h1, if_pos h2] at h
      cases h
    · exact Or.inr (by omega)

/-- The first pass assigns to exactly the individuals it was given. -/
theorem firstPassAux_map_individual (coins : Nat → Bool) (l : List Individual) :
    ∀ i s n, ((firstPassAux coins l i s n).1.map Assignment.individual) = l := by
  induction l with
  | nil => intro i s n; rfl
  | cons a rest ih =>
    intro i s n
    simp only [firstPassAux, List.map_cons]
    rw [ih]

/-- The first pass's final smiling counter counts the smiling assignments
it produced (on top of its starting value). -/
theorem firstPassAux_smiling_count (coins : Nat → Bool) (l : List Individual) :
    ∀ i s n, (firstPassAux coins l i s n).2.1 =
      s + (firstPassAux coins l i s n).1.countP (fun a => a.smile) := by
  induction l with
  | nil => intro i s n; simp [firstPassAux]
  | cons a rest ih =>
    intro i s n
    simp only [firstPassAux]
    cases hb : smileVal coins i s n <;>
      simp [hb, List.countP_cons, ih (i + 1)] <;> omega

/-- The first pass's final not-smiling counter counts the non-smiling
assignments it produced (on top of its starting value). -/
theorem firstPassAux_notSmiling_count (coins : Nat → Bool) (l : List Individual) :
    ∀ i s n, (firstPassAux coins l i s n).2.2 =
      n + (firstPassAux coins l i s n).1.countP (fun a => !a.smile) := by
  induction l with
  | nil => intro i s n; simp [firstPassAux]
  | cons a rest ih =>
    intro i s n
    simp only [firstPassAux]
    cases hb : smileVal coins i s n <;>
      simp [hb, List.countP_cons, ih (i + 1)] <;> omega

/-- The first pass's two final counters sum to the starting counters plus
the number of individuals processed. -/
theorem firstPassAux_sum (coins : Nat → Bool) (l : List Individual) :
    ∀ i s n, (firstPassAux coins l i s n).2.1 + (firstPassAux coins l i s n).2.2 =
      s + n + l.length := by
  induction l with
  | nil => intro i s n; simp [firstPassAux]
  | cons a rest ih =>
    intro i s n
    simp only [firstPassAux, List.length_cons]
    cases hb : smileVal coins i s n <;> simp [hb, ih (i + 1)] <;> omega

/-- The forced-choice cap: the smiling counter never exceeds 10. -/
theorem firstPassAux_smiling_le (coins : Nat → Bool) (l : List Individual) :
    ∀ i s n, s ≤ 10 → (firstPassAux coins l i s n).2.1 ≤ 10 := by
  induction l with
  | nil => intro i s n h; simpa [firstPassAux] using h
  | cons a rest ih =>
    intro i s n h
    simp only [firstPassAux]
    cases hb : smileVal coins i s n
    · simpa [hb] using ih (i + 1) s (n + 1) h
    · have hlt := smileVal_true_lt coins i s n hb
      simpa [hb] using ih (i + 1) (s + 1) n (by omega)

/-- The not-smiling counter grows by at most one per individual. -/
theorem firstPassAux_notSmiling_bound (coins : Nat → Bool) (l : List Individual) :
    ∀ i s n, (firstPassAux coins l i s n).2.2 ≤ n + l.length := by
  induction l with
  | nil => intro i s n; simp [firstPassAux]
  | cons a rest ih =>
    intro i s n
    have h2 := ih (i + 1) s (n + 1)
    have h3 := ih (i + 1) (s + 1) n
    simp only [firstPassAux, List.length_cons]
    cases hb : smileVal coins i s n <;> simp [hb] <;> omega

/-- The forced-choice cap on the other side: starting from counters at
most 10 with at most 20 total capacity, the not-smiling counter also
never exceeds 10. -/
theorem firstPassAux_notSmiling_le (coins : Nat → Bool) (l : List Individual) :
    ∀ i s n, s ≤ 10 → n ≤ 10 → s + n + l.length ≤ 20 →
      (firstPassAux coins l i s n).2.2 ≤ 10 := by
  induction l with
  | nil => intro i s n _ h _; simpa [firstPassAux] using h
  | cons a rest ih =>
    intro i s n hs hn htot
    simp only [List.length_cons] at htot
    have hbound := firstPassAux_notSmiling_bound coins rest (i + 1) s (n + 1)
    simp only [firstPassAux]
    cases hb : smileVal coins i s n
    · rcases smileVal_false_cases coins i s n hb with h10 | hlt
      · simp [hb]
        omega
      · have hih := ih (i + 1) s (n + 1) hs (by omega) (by omega)
        simp [hb]
        omega
    · have hslt := smileVal_true_lt coins i s n hb
      have hih := ih (i + 1) (s + 1) n (by omega) hn (by omega)
      simp [hb]
      omega

/-- The first repair loop is the identity once at least 2 smiling
assignments exist. -/
theorem flipToSmiling_of_ge (l : List Assignment) (s n : Nat) (h : 2 ≤ s) :
    flipToSmiling l s n = (l, s, n) := by
  cases l with
  | nil => rfl
  | cons a rest =>
    simp only [flipToSmiling]
    rw [if_neg (by omega)]

/-- The second repair loop is the identity once at least 2 not-smiling
assignments exist. -/
theorem flipToNotSmiling_of_ge (l : List Assignment) (s n : Nat) (h : 2 ≤ n) :
    flipToNotSmiling l s n = (l, s, n) := by
  cases l with
  | nil => rfl
  | cons a rest =>
    simp only [flipToNotSmiling]
    rw [if_neg (by omega)]

/-- When the first pass already yields at least 2 assignments on each
side, both repair loops are the identity and the grid images are the
first-pass assignments. -/
theorem generateGridForRound_images_eq (size : Size) (shuffled : List Individual)
    (coins : Nat → Bool)
    (hs : 2 ≤ (firstPassAux coins (shuffled.take 12) 0 0 0).2.1)
    (hn : 2 ≤ (firstPassAux coins (shuffled.take 12) 0 0 0).2.2) :
    (generateGridForRound size shuffled coins).images =
      (firstPassAux coins (shuffled.take 12) 0 0 0).1.map (mkGridImage size) := by
  simp only [generateGridForRound]
  simp only [flipToSmiling_of_ge _ _ _ hs, flipToNotSmiling_of_ge _ _ _ hn]

/-- C6: every grid produced by `generateGridForRound` has at least 2
smiling and at least 2 not-smiling faces among its 12 images, for every
pool shuffle, every outcome of the random first-pass coin stream, and
every position shuffle; moreover the repair passes only flip smile
assignments, never reselect individuals: the grid's individuals are
exactly the 12 selected from the shuffled pool. -/
theorem claim_C6
    (shuffled : List Individual) (h1 : shuffled.Perm STIMULI_CONFIG_individuals)
    (coins : Nat → Bool) (size : Size)
    (posShuffle : List GridImage → List GridImage)
    (h2 : ∀ l, (posShuffle l).Perm l) :
    (posShuffle (generateGridForRound size shuffled coins).images).length = 12 ∧
    2 ≤ (posShuffle (generateGridForRound size shuffled coins).images).countP
      (fun g => g.smile) ∧
    2 ≤ (posShuffle (generateGridForRound size shuffled coins).images).countP
      (fun g => !g.smile) ∧
    ((posShuffle (generateGridForRound size shuffled coins).images).map
      (fun g => g.individual_id)).Perm ((shuffled.take 12).map Individual.id) := by
  have hlen : shuffled.length = 16 := by
    have h := h1.length_eq
    simpa [STIMULI_CONFIG_individuals] using h
  have hsel : (shuffled.take 12).length = 12 := by
    rw [List.length_take]
    omega
  have hsum := firstPassAux_sum coins (shuffled.take 12) 0 0 0
  rw [hsel] at hsum
  have hsle : (firstPassAux coins (shuffled.take 12) 0 0 0).2.1 ≤ 10 :=
    firstPassAux_smiling_le coins (shuffled.take 12) 0 0 0 (by omega)
  have hnle : (firstPassAux coins (shuffled.take 12) 0 0 0).2.2 ≤ 10 :=
    firstPassAux_notSmiling_le coins (shuffled.take 12) 0 0 0 (by omega) (by omega)
      (by omega)
  have hs2 : 2 ≤ (firstPassAux coins (shuffled.take 12) 0 0 0).2.1 := by omega
  have hn2 : 2 ≤ (firstPassAux coins (shuffled.take 12) 0 0 0).2.2 := by omega
  have himg := generateGridForRound_images_eq size shuffled coins hs2 hn2
  have hmapind := firstPassAux_map_individual coins (shuffled.take 12) 0 0 0
  have hlenfp : (firstPassAux coins (shuffled.take 12) 0 0 0).1.length = 12 := by
    have h := congrArg List.length hmapind
    rw [List.length_map] at h
    omega
  have hscount := firstPassAux_smiling_count coins (shuffled.take 12) 0 0 0
  have hncount := firstPassAux_notSmiling_count coins (shuffled.take 12) 0 0 0
  refine ⟨?_, ?_, ?_, ?_⟩
  · rw [(h2 _).length_eq, himg, List.length_map]
    exact hlenfp
  · rw [(h2 _).countP_eq, himg, List.countP_map]
    have hfun : ((fun g => g.smile) ∘ mkGridImage size) = fun a => a.smile := by
      funext a
      simp [mkGridImage]
    rw [hfun]
    omega
  · rw [(h2 _).countP_eq, himg, List.countP_map]
    have hfun : ((fun g => !g.smile) ∘ mkGridImage size) = fun a => !a.smile := by
      funext a
      simp [mkGridImage]
    rw [hfun]
    omega
  · refine ((h2 _).map _).trans ?_
    rw [himg, List.map_map]
    have hfun : ((fun g => g.individual_id) ∘ mkGridImage size) =
        (Individual.id ∘ Assignment.individual) := by
      funext a
      simp [mkGridImage]
    rw [hfun, ← List.map_map, hmapind]

/-- Witness for C6: instantiated at the identity shuffles and the
all-true coin stream. -/
theorem claim_C6_witness :
    2 ≤ ((id : List GridImage → List GridImage)
      (generateGridForRound Size.big STIMULI_CONFIG_individuals (fun _ => true)).images).countP
      (fun g => g.smile) :=
  (claim_C6 STIMULI_CONFIG_individuals (List.Perm.refl _) (fun _ => true) Size.big
    id (fun l => List.Perm.refl l)).2.1

/-- A deviating check in practice mode with no previously warned value:
appends the event, shows the warning, and records the warned value. -/
theorem checkForZoomChange_warns_none (now : Nat) (c a : ℚ) (s : ZoomState)
    (hact : s.zoomTrackingActive = true) (hend : s.experimentEnded = false)
    (hterm : s.experimentTerminatedDueToZoom = false) (hprac : s.inPracticeMode = true)
    (happr : s.approvedDPR = some a) (hlw : s.lastWarnedDPR = none)
    (hdev : 1 / 100 < |c - a|) :
    checkForZoomChange now c s =
      { s with
        zoomChanges := s.zoomChanges ++ [⟨now, a, c, jsRound (c * 100)⟩],
        warningShownCount := s.warningShownCount + 1,
        lastWarnedDPR := some c } := by
  unfold checkForZoomChange
  rw [hact, hend, hterm, happr]
  simp only [Bool.not_true, Bool.false_or, Bool.or_self, Bool.false_eq_true, if_false]
  rw [if_pos hdev, hprac, if_pos rfl, hlw]
  rfl

/-- A deviating check in practice mode whose observed value differs from
the last warned value by more than the dedup tolerance: appends the
event, shows the warning, and records the new warned value. -/
theorem checkForZoomChange_warns_far (now : Nat) (c a lw : ℚ) (s : ZoomState)
    (hact : s.zoomTrackingActive = true) (hend : s.experimentEnded = false)
    (hterm : s.experimentTerminatedDueToZoom = false) (hprac : s.inPracticeMode = true)
    (happr : s.approvedDPR = some a) (hlw : s.lastWarnedDPR = some lw)
    (hdev : 1 / 100 < |c - a|) (hfar : 1 / 100 < |c - lw|) :
    checkForZoomChange now c s =
      { s with
        zoomChanges := s.zoomChanges ++ [⟨now, a, c, jsRound (c * 100)⟩],
        warningShownCount := s.warningShownCount + 1,
        lastWarnedDPR := some c } := by
  unfold checkForZoomChange
  rw [hact, hend, hterm, happr]
  simp only [Bool.not_true, Bool.false_or, Bool.or_self, Bool.false_eq_true, if_false]
  rw [if_pos hdev, hprac, if_pos rfl, hlw]
  dsimp only
  rw [if_pos hfar]
  rfl

/-- A deviating check in practice mode whose observed value is within the
dedup tolerance of the last warned value: appends the event but shows no
warning and leaves the warned value unchanged. -/
theorem checkForZoomChange_dedups (now : Nat) (c a lw : ℚ) (s : ZoomState)
    (hact : s.zoomTrackingActive = true) (hend : s.experimentEnded = false)
    (hterm : s.experimentTerminatedDueToZoom = false) (hprac : s.inPracticeMode = true)
    (happr : s.approvedDPR = some a) (hlw : s.lastWarnedDPR = some lw)
    (hdev : 1 / 100 < |c - a|) (hclose : ¬(1 / 100 < |c - lw|)) :
    checkForZoomChange now c s =
      { s with zoomChanges := s.zoomChanges ++ [⟨now, a, c, jsRound (c * 100)⟩] } := by
  unfold checkForZoomChange
  rw [hact, hend, hterm, happr]
  simp only [Bool.not_true, Bool.false_or, Bool.or_self, Bool.false_eq_true, if_false]
  rw [if_pos hdev, hprac, if_pos rfl, hlw]
  dsimp only
  rw [if_neg hclose]

/-- A deviating check in main mode: appends the event and terminates. -/
theorem checkForZoomChange_terminates (now : Nat) (c a : ℚ) (s : ZoomState)
    (hact : s.zoomTrackingActive = true) (hend : s.experimentEnded = false)
    (hterm : s.experimentTerminatedDueToZoom = false) (hprac : s.inPracticeMode = false)
    (happr : s.approvedDPR = some a) (hdev : 1 / 100 < |c - a|) :
    checkForZoomChange now c s =
      { s with
        zoomChanges := s.zoomChanges ++ [⟨now, a, c, jsRound (c * 100)⟩],
        experimentTerminatedDueToZoom := true,
        intervalActive := false,
        terminationOverlayShown := true } := by
  unfold checkForZoomChange
  rw [hact, hend, hterm, happr]
  simp only [Bool.not_true, Bool.false_or, Bool.or_self, Bool.false_eq_true, if_false]
  rw [if_pos hdev, hprac]
  simp only [Bool.false_eq_true, if_false]
  unfold terminateExperimentDueToZoom
  dsimp only
  simp only [Bool.false_eq_true, if_false]

/-- Every monitor operation preserves the post-initialization invariant:
tracking stays active, the approved baseline keeps its original value,
and every recorded event carries that baseline. -/
theorem applyZoomStep_inv (d : ℚ) (s : ZoomState) (step : ZoomStep)
    (h1 : s.zoomTrackingActive = true) (h2 : s.approvedDPR = some d)
    (h3 : ∀ e ∈ s.zoomChanges, e.approved_dpr = d) :
    (applyZoomStep s step).zoomTrackingActive = true ∧
    (applyZoomStep s step).approvedDPR = some d ∧
    ∀ e ∈ (applyZoomStep s step).zoomChanges, e.approved_dpr = d := by
  cases step with
  | init dpr =>
    have hid : applyZoomStep s (ZoomStep.init dpr) = s := by
      simp [applyZoomStep, initZoomTracking, h1]
    rw [hid]
    exact ⟨h1, h2, h3⟩
  | endPractice => exact ⟨h1, h2, h3⟩
  | terminate =>
    simp only [applyZoomStep]
    unfold terminateExperimentDueToZoom
    split
    · exact ⟨h1, h2, h3⟩
    · exact ⟨h1, h2, h3⟩
  | check now c =>
    have hmem : ∀ e ∈ s.zoomChanges ++
        [({ timestamp := now, approved_dpr := d, current_dpr := c,
            detected_zoom := jsRound (c * 100) } : ZoomChangeEvent)],
        e.approved_dpr = d := by
      intro e he
      rcases List.mem_append.mp he with h | h
      · exact h3 e h
      · have heq := List.mem_singleton.mp h
        subst heq
        rfl
    simp only [applyZoomStep]
    unfold checkForZoomChange
    rw [h2]
    split
    · exact ⟨h1, h2, h3⟩
    · dsimp only
      split
      · split
        · split
          · exact ⟨h1, rfl, hmem⟩
          · split
            · exact ⟨h1, rfl, hmem⟩
            · exact ⟨h1, rfl, hmem⟩
        · unfold terminateExperimentDueToZoom
          split
          · exact ⟨h1, rfl, hmem⟩
          · exact ⟨h1, rfl, hmem⟩
      · exact ⟨h1, h2, h3⟩

/-- C3: once `initZoomTracking` has captured the approved baseline from a
fresh (inactive) monitor state, no sequence of further monitor operations
— repeated initialization, checks at arbitrary observed ratios, ending
practice mode, or termination — changes the stored baseline, and every
zoom-change event ever recorded carries that original baseline as its
comparison value. -/
theorem claim_C3 (s0 : ZoomState) (d : ℚ)
    (h0 : s0.zoomTrackingActive = false) (hc : s0.zoomChanges = [])
    (steps : List ZoomStep) :
    (applyZoomSteps (initZoomTracking d s0) steps).approvedDPR = some d ∧
    ∀ e ∈ (applyZoomSteps (initZoomTracking d s0) steps).zoomChanges,
      e.approved_dpr = d := by
  have hinit1 : (initZoomTracking d s0).zoomTrackingActive = true := by
    simp [initZoomTracking, h0]
  have hinit2 : (initZoomTracking d s0).approvedDPR = some d := by
    simp [initZoomTracking, h0]
  have hinit3 : ∀ e ∈ (initZoomTracking d s0).zoomChanges, e.approved_dpr = d := by
    simp [initZoomTracking, h0, hc]
  suffices h : ∀ (l : List ZoomStep) (s : ZoomState), s.zoomTrackingActive = true →
      s.approvedDPR = some d → (∀ e ∈ s.zoomChanges, e.approved_dpr = d) →
      (applyZoomSteps s l).approvedDPR = some d ∧
      ∀ e ∈ (applyZoomSteps s l).zoomChanges, e.approved_dpr = d by
    exact h steps _ hinit1 hinit2 hinit3
  intro l
  induction l with
  | nil =>
    intro s _ p2 p3
    exact ⟨p2, p3⟩
  | cons st rest ih =>
    intro s p1 p2 p3
    have hstep := applyZoomStep_inv d s st p1 p2 p3
    exact ih (applyZoomStep s st) hstep.1 hstep.2.1 hstep.2.2

/-- Witness for C3: a fresh state, baseline 1, one deviating check. -/
theorem claim_C3_witness :
    (applyZoomSteps
      (initZoomTracking 1 ⟨false, false, false, true, none, none, none, [], 0, false, false⟩)
      [ZoomStep.check 0 2]).approvedDPR = some 1 :=
  (claim_C3 ⟨false, false, false, true, none, none, none, [], 0, false, false⟩ 1 rfl rfl
    [ZoomStep.check 0 2]).1

/-- C4: for the same observed deviation beyond the tolerance,
`checkForZoomChange` shows one dismissible warning and does not terminate
when it fires before `endPracticeMode` has run, and it terminates the
session (terminated-for-cause flag set, terminal overlay shown, no
warning) when the same deviation fires after `endPracticeMode` has run. -/
theorem claim_C4 (now : Nat) (c a : ℚ) (s : ZoomState)
    (hact : s.zoomTrackingActive = true) (hend : s.experimentEnded = false)
    (hterm : s.experimentTerminatedDueToZoom = false)
    (hprac : s.inPracticeMode = true)
    (happr : s.approvedDPR = some a) (hlw : s.lastWarnedDPR = none)
    (hdev : 1 / 100 < |c - a|) :
    ((checkForZoomChange now c s).warningShownCount = s.warningShownCount + 1 ∧
      (checkForZoomChange now c s).experimentTerminatedDueToZoom = false ∧
      (checkForZoomChange now c s).terminationOverlayShown = s.terminationOverlayShown) ∧
    ((checkForZoomChange now c (endPracticeMode s)).experimentTerminatedDueToZoom = true ∧
      (checkForZoomChange now c (endPracticeMode s)).terminationOverlayShown = true ∧
      (checkForZoomChange now c (endPracticeMode s)).warningShownCount =
        s.warningShownCount) := by
  constructor
  · rw [checkForZoomChange_warns_none now c a s hact hend hterm hprac happr hlw hdev]
    exact ⟨rfl, hterm, rfl⟩
  · rw [checkForZoomChange_terminates now c a (endPracticeMode s) hact hend hterm rfl
      happr hdev]
    exact ⟨rfl, rfl, rfl⟩

/-- Witness for C4: baseline 1, observed ratio 2 in a fresh practice
state. -/
theorem claim_C4_witness :
    (checkForZoomChange 0 2
        ⟨true, false, false, true, some 1, some 1, none, [], 0, false, true⟩).warningShownCount =
      (⟨true, false, false, true, some 1, some 1, none, [], 0, false, true⟩ :
        ZoomState).warningShownCount + 1 :=
  (claim_C4 0 2 1 ⟨true, false, false, true, some 1, some 1, none, [], 0, false, true⟩
    rfl rfl rfl rfl rfl rfl (by norm_num)).1.1

/-- C5: in practice mode, a second deviation whose observed ratio is
within the dedup tolerance of the first produces no second warning (one
warning total, decided by comparison against the last-warned value, which
stays at the first observed ratio), while a further deviation to a ratio
far from the last-warned value produces a second warning. -/
theorem claim_C5 (n1 n2 n3 : Nat) (c1 c2 c3 a : ℚ) (s : ZoomState)
    (hact : s.zoomTrackingActive = true) (hend : s.experimentEnded = false)
    (hterm : s.experimentTerminatedDueToZoom = false)
    (hprac : s.inPracticeMode = true)
    (happr : s.approvedDPR = some a) (hlw : s.lastWarnedDPR = none)
    (h1 : 1 / 100 < |c1 - a|) (h2 : 1 / 100 < |c2 - a|) (h3 : 1 / 100 < |c3 - a|)
    (hsame : ¬(1 / 100 < |c2 - c1|)) (hdiff : 1 / 100 < |c3 - c1|) :
    (checkForZoomChange n1 c1 s).warningShownCount = s.warningShownCount + 1 ∧
    (checkForZoomChange n2 c2 (checkForZoomChange n1 c1 s)).warningShownCount =
      s.warningShownCount + 1 ∧
    (checkForZoomChange n2 c2 (checkForZoomChange n1 c1 s)).lastWarnedDPR = some c1 ∧
    (checkForZoomChange n3 c3
        (checkForZoomChange n2 c2 (checkForZoomChange n1 c1 s))).warningShownCount =
      s.warningShownCount + 2 := by
  have e1 := checkForZoomChange_warns_none n1 c1 a s hact hend hterm hprac happr hlw h1
  have f1 : (checkForZoomChange n1 c1 s).zoomTrackingActive = true := by
    rw [e1]; exact hact
  have f2 : (checkForZoomChange n1 c1 s).experimentEnded = false := by
    rw [e1]; exact hend
  have f3 : (checkForZoomChange n1 c1 s).experimentTerminatedDueToZoom = false := by
    rw [e1]; exact hterm
  have f4 : (checkForZoomChange n1 c1 s).inPracticeMode = true := by
    rw [e1]; exact hprac
  have f5 : (checkForZoomChange n1 c1 s).approvedDPR = some a := by
    rw [e1]; exact happr
  have f6 : (checkForZoomChange n1 c1 s).lastWarnedDPR = some c1 := by
    rw [e1]
  have f7 : (checkForZoomChange n1 c1 s).warningShownCount = s.warningShownCount + 1 := by
    rw [e1]
  have e2 := checkForZoomChange_dedups n2 c2 a c1 (checkForZoomChange n1 c1 s)
    f1 f2 f3 f4 f5 f6 h2 hsame
  have g1 : (checkForZoomChange n2 c2 (checkForZoomChange n1 c1 s)).zoomTrackingActive =
      true := by rw [e2]; exact f1
  have g2 : (checkForZoomChange n2 c2 (checkForZoomChange n1 c1 s)).experimentEnded =
      false := by rw [e2]; exact f2
  have g3 : (checkForZoomChange n2 c2
      (checkForZoomChange n1 c1 s)).experimentTerminatedDueToZoom = false := by
    rw [e2]; exact f3
  have g4 : (checkForZoomChange n2 c2 (checkForZoomChange n1 c1 s)).inPracticeMode =
      true := by rw [e2]; exact f4
  have g5 : (checkForZoomChange n2 c2 (checkForZoomChange n1 c1 s)).approvedDPR =
      some a := by rw [e2]; exact f5
  have g6 : (checkForZoomChange n2 c2 (checkForZoomChange n1 c1 s)).lastWarnedDPR =
      some c1 := by rw [e2]; exact f6
  have g7 : (checkForZoomChange n2 c2 (checkForZoomChange n1 c1 s)).warningShownCount =
      s.warningShownCount + 1 := by rw [e2]; exact f7
  have e3 := checkForZoomChange_warns_far n3 c3 a c1
    (checkForZoomChange n2 c2 (checkForZoomChange n1 c1 s)) g1 g2 g3 g4 g5 g6 h3 hdiff
  refine ⟨f7, g7, g6, ?_⟩
  rw [e3]
  simp [g7]

/-- Witness for C5: baseline 1; deviations to 2, 2 again, then 3. -/
theorem claim_C5_witness :
    (checkForZoomChange 2 3
        (checkForZoomChange 1 2 (checkForZoomChange 0 2
          ⟨true, false, false, true, some 1, some 1, none, [], 0, false,
            true⟩))).warningShownCount =
      (⟨true, false, false, true, some 1, some 1, none, [], 0, false, true⟩ :
        ZoomState).warningShownCount + 2 :=
  (claim_C5 0 1 2 2 2 3 1
    ⟨true, false, false, true, some 1, some 1, none, [], 0, false, true⟩
    rfl rfl rfl rfl rfl rfl (by norm_num) (by norm_num) (by norm_num)
    (by norm_num) (by norm_num)).2.2.2

/-- C7: termination is absorbing — with the terminated or ended flag set,
`checkForZoomChange` is a complete no-op (state unchanged: no event
appended, no overlay, no second termination), and a second
`terminateExperimentDueToZoom` call changes nothing further. -/
theorem claim_C7 :
    (∀ (now : Nat) (c : ℚ) (s : ZoomState),
      s.experimentTerminatedDueToZoom = true ∨ s.experimentEnded = true →
      checkForZoomChange now c s = s) ∧
    ∀ s : ZoomState,
      terminateExperimentDueToZoom (terminateExperimentDueToZoom s) =
        terminateExperimentDueToZoom s := by
  constructor
  · intro now c s h
    unfold checkForZoomChange
    rcases h with h | h
    · rw [h]
      simp
    · rw [h]
      simp
  · intro s
    have hflag : (terminateExperimentDueToZoom s).experimentTerminatedDueToZoom = true := by
      unfold terminateExperimentDueToZoom
      split
      · assumption
      · rfl
    conv_lhs => rw [terminateExperimentDueToZoom.eq_def]
    rw [if_pos hflag]

/-- Witness for C7: a terminated state absorbs a deviating check. -/
theorem claim_C7_witness :
    checkForZoomChange 0 2
        ⟨true, false, true, true, some 1, some 1, none, [], 0, true, false⟩ =
      ⟨true, false, true, true, some 1, some 1, none, [], 0, true, false⟩ :=
  claim_C7.1 0 2 ⟨true, false, true, true, some 1, some 1, none, [], 0, true, false⟩
    (Or.inl rfl)

/-- C8: in the precondition loop, one iteration increments the attempt
counter; the manual bypass button is offered iff the incremented counter
is at least 3, the zoom check fails, and fullscreen is satisfied;
choosing it (button index 1 while offered) sets the session's bypassed
flag and stops the loop; in every other case the loop repeats exactly
until both the zoom and fullscreen checks pass. -/
theorem claim_C8 (s : CheckLoopState) (zoomOk fullscreenOk : Bool) (response : Nat) :
    (zoomCheckIteration s zoomOk fullscreenOk response).state.attempts = s.attempts + 1 ∧
    ("Proceed Anyway" ∈ (zoomCheckIteration s zoomOk fullscreenOk response).choices ↔
      3 ≤ s.attempts + 1 ∧ zoomOk = false ∧ fullscreenOk = true) ∧
    (("Proceed Anyway" ∈ (zoomCheckIteration s zoomOk fullscreenOk response).choices ∧
        response = 1) →
      (zoomCheckIteration s zoomOk fullscreenOk response).state.bypassed = true ∧
      (zoomCheckIteration s zoomOk fullscreenOk response).loopAgain = false) ∧
    (¬("Proceed Anyway" ∈ (zoomCheckIteration s zoomOk fullscreenOk response).choices ∧
        response = 1) →
      (zoomCheckIteration s zoomOk fullscreenOk response).loopAgain =
        !(zoomOk && fullscreenOk)) := by
  by_cases h3 : 3 ≤ s.attempts + 1 <;> by_cases hr : response = 1 <;>
    cases zoomOk <;> cases fullscreenOk <;>
      simp [zoomCheckIteration, h3, hr]

/-- Witness for C8: a third failing attempt with fullscreen satisfied and
the bypass button chosen. -/
theorem claim_C8_witness :
    (zoomCheckIteration ⟨2, false⟩ false true 1).state.bypassed = true ∧
    (zoomCheckIteration ⟨2, false⟩ false true 1).loopAgain = false :=
  (claim_C8 ⟨2, false⟩ false true 1).2.2.1 ⟨by decide, rfl⟩

/-- C9: `exportData` never lets an exception escape to its caller: with
the configured non-empty endpoint, a throwing form submission makes
`sendToGoogleSheets` resolve `false` and `exportData` invoke only the
`onError` callback, while a non-throwing submission makes it resolve
`true` (success assumed without reading any response) and `exportData`
invoke only the `onComplete` callback. -/
theorem claim_C9 :
    (∀ submitThrows : Bool, ∃ r, exportData submitThrows = Except.ok r) ∧
    sendToGoogleSheets true = Except.ok false ∧
    sendToGoogleSheets false = Except.ok true ∧
    exportData true = Except.ok ⟨[], ["Failed to export data"]⟩ ∧
    exportData false = Except.ok ⟨["sheets"], []⟩ := by
  refine ⟨?_, rfl, rfl, rfl, rfl⟩
  intro submitThrows
  cases submitThrows
  · exact ⟨⟨["sheets"], []⟩, rfl⟩
  · exact ⟨⟨[], ["Failed to export data"]⟩, rfl⟩

/-- Witness for C9: the throwing-submission run resolves without raising. -/
theorem claim_C9_witness : ∃ r, exportData true = Except.ok r :=
  claim_C9.1 true

/-- Any possible memory-variant event leaves every zoom field unchanged:
no step of the exp_2 timeline is a zoom-monitor step, and the fullscreen
handler touches only the fullscreen-warning flag. -/
theorem exp2RunEvent_preserves (st : Exp2Session) (e : Exp2Event)
    (he : exp2EventPossible e) :
    (exp2RunEvent st e).zoomChanges = st.zoomChanges ∧
    (exp2RunEvent st e).terminatedDueToZoom = st.terminatedDueToZoom ∧
    (exp2RunEvent st e).zoomTrackingActive = st.zoomTrackingActive := by
  cases e with
  | fullscreenChange b =>
    simp only [exp2RunEvent, exp2HandleFullscreenChange]
    split
    · exact ⟨rfl, rfl, rfl⟩
    · exact ⟨rfl, rfl, rfl⟩
  | step s =>
    have he' : s ∈ exp2Timeline := he
    have hne : s ≠ Exp2Step.initZoomTrackingStep := by
      intro h
      subst h
      exact absurd he' (by decide)
    cases s
    all_goals first
      | exact ⟨rfl, rfl, rfl⟩
      | exact absurd rfl hne

/-- Folding any sequence of possible memory-variant events leaves every
zoom field unchanged. -/
theorem exp2Run_fields (evs : List Exp2Event) :
    ∀ st : Exp2Session, (∀ e ∈ evs, exp2EventPossible e) →
      (evs.foldl exp2RunEvent st).zoomChanges = st.zoomChanges ∧
      (evs.foldl exp2RunEvent st).terminatedDueToZoom = st.terminatedDueToZoom ∧
      (evs.foldl exp2RunEvent st).zoomTrackingActive = st.zoomTrackingActive := by
  induction evs with
  | nil =>
    intro st _
    exact ⟨rfl, rfl, rfl⟩
  | cons e rest ih =>
    intro st h
    have h1 := exp2RunEvent_preserves st e (h e (List.mem_cons_self e rest))
    have h2 := ih (exp2RunEvent st e) (fun x hx => h x (List.mem_cons_of_mem e hx))
    exact ⟨h2.1.trans h1.1, h2.2.1.trans h1.2.1, h2.2.2.trans h1.2.2⟩

/-- C10 (counterexample to the claim as stated): the memory variant's
export payload has no `zoom_tracking` field at all — the claimed "the
exported zoom_tracking field is the empty object" is false because the
payload object of its data-export module is built without that key. -/
theorem claim_C10_counterexample :
    "zoom_tracking" ∉ exp2PayloadKeys ∧ "rounds" ∈ exp2PayloadKeys := by
  decide

/-- C10 (amended): the memory variant never initializes a zoom/fidelity
monitor: its timeline contains neither the zoom-tracking-init step nor
the end-practice-mode step; along every run built from its timeline steps
and fullscreen events, no zoom-change event is recorded, the session is
never terminated due to a zoom change, and tracking is never activated;
and the export payload built by its data-export module contains no
`zoom_tracking` field (rather than an empty `zoom_tracking` object). -/
theorem claim_C10 :
    (Exp2Step.initZoomTrackingStep ∉ exp2Timeline ∧
      Exp2Step.endPracticeModeStep ∉ exp2Timeline) ∧
    (∀ evs : List Exp2Event, (∀ e ∈ evs, exp2EventPossible e) →
      (evs.foldl exp2RunEvent exp2InitialSession).zoomChanges = [] ∧
      (evs.foldl exp2RunEvent exp2InitialSession).terminatedDueToZoom = false ∧
      (evs.foldl exp2RunEvent exp2InitialSession).zoomTrackingActive = false) ∧
    "zoom_tracking" ∉ exp2PayloadKeys := by
  refine ⟨⟨by decide, by decide⟩, ?_, by decide⟩
  intro evs h
  have hf := exp2Run_fields evs exp2InitialSession h
  exact ⟨hf.1, hf.2.1, hf.2.2⟩

/-- Witness for C10: the one-step run consisting of the preload screen. -/
theorem claim_C10_witness :
    ([Exp2Event.step Exp2Step.preload].foldl exp2RunEvent exp2InitialSession).zoomChanges =
      [] :=
  (claim_C10.2.1 [Exp2Event.step Exp2Step.preload] (by
    intro e he
    have h := List.mem_singleton.mp he
    subst h
    show Exp2Step.preload ∈ exp2Timeline
    decide)).1

end FaceExp
